import Mathlib

/-!
Shallow embedding of the LMS_Speaks TTS server core (TypeScript sources:
`tts-engine` revision with `SystemTtsEngine` / `LmStudioTtsEngine`, and the
`TtsServer` route handler).  Pure data-flow of the source is modelled as Lean
functions; the OS process, the file system and the remote HTTP server are
modelled as explicit behaviour parameters; JavaScript numbers used for speed
multipliers become `ℚ` (the rate formulas are exact on rationals and
`Math.round` rounds half-way cases up, exactly as Mathlib's `round`);
JavaScript `null`-able exit codes become `Option ℤ`.
-/

namespace LmsSpeaks

/-- Audio formats, from the `AudioFormat` union type of the source. -/
inductive AudioFormat
  | mp3 | wav | opus | aac | flac | pcm
deriving DecidableEq

/-- Audio byte content (a Node `Buffer`). -/
abbrev Content := List ℕ

/-- The `SynthesisOptions` interface of the source: optional fields stay optional, exactly
as the engine receives them. -/
structure SynthesisOptions where
  text : String
  voice : Option String
  format : Option AudioFormat
  speed : Option ℚ
deriving DecidableEq

/-- The `SynthesisResult` interface of the source. -/
structure SynthesisResult where
  audio : Content
  format : AudioFormat
deriving DecidableEq

/-- The `VoiceInfo` interface of the source. -/
structure VoiceInfo where
  id : String
  name : String
  language : Option String
  gender : Option String
deriving DecidableEq

/-! ### Concurrency admission gate (`TtsServer`, src/unnamed/part_000)

The route handler for `POST /v1/audio/speech` guards synthesis with
`activeSynthesisCount` (a JavaScript number, here `ℤ` so that a hypothetical
negative drift would be representable): it refuses with HTTP 429 when
`activeSynthesisCount >= maxConcurrency`, otherwise increments, awaits the
engine and decrements in a `finally` block. -/

/-- The admission check of the handler (lines 179–197 of the server source):
refuse without mutation at or above the ceiling, else increment.  Returns
(admitted?, new counter). -/
def tryAdmit (maxConcurrency : ℕ) (activeSynthesisCount : ℤ) : Bool × ℤ :=
  if (maxConcurrency : ℤ) ≤ activeSynthesisCount then (false, activeSynthesisCount)
  else (true, activeSynthesisCount + 1)

/-- The `finally` block of the handler: one decrement. -/
def release (activeSynthesisCount : ℤ) : ℤ := activeSynthesisCount - 1

/-- Responses the guarded part of the handler can produce. -/
inductive HandlerResponse
  | tooMany
  | ok (audio : Content) (format : AudioFormat)
  | serverError (msg : String)
deriving DecidableEq

/-- Observable effect of one run of the guarded part of the handler. -/
structure HandlerRun where
  response : HandlerResponse
  /-- counter value while `engine.synthesize` is awaited (`none` if refused). -/
  countDuringSynth : Option ℤ
  finalCount : ℤ
deriving DecidableEq

/-- One run of the `POST /v1/audio/speech` handler from the admission check
onwards, with the engine outcome supplied as a parameter (`Except` models the
awaited promise resolving or rejecting).  Mirrors: refuse at the ceiling;
else increment, synthesize, respond 200 on success and 500 on error, and
decrement exactly once in the `finally`. -/
def speechHandler (maxConcurrency : ℕ) (count : ℤ)
    (synth : Except String SynthesisResult) : HandlerRun :=
  let (admitted, c1) := tryAdmit maxConcurrency count
  if admitted then
    let resp := match synth with
      | .ok r => HandlerResponse.ok r.audio r.format
      | .error e => HandlerResponse.serverError e
    { response := resp, countDuringSynth := some c1, finalCount := release c1 }
  else
    { response := .tooMany, countDuringSynth := none, finalCount := count }

/-- Counter states reachable by interleaving handler runs.  `k` is the number
of admitted requests currently between their increment and their `finally`
decrement; the three transitions are the three gate interactions the handler
performs (successful admission, refusal, and the `finally` release of one
in-flight request). -/
inductive Reachable (c : ℕ) : ℤ → ℕ → Prop
  | init : Reachable c 0 0
  | enter {n : ℤ} {k : ℕ} : Reachable c n k → (tryAdmit c n).1 = true →
      Reachable c (tryAdmit c n).2 (k + 1)
  | refuse {n : ℤ} {k : ℕ} : Reachable c n k → (tryAdmit c n).1 = false →
      Reachable c n k
  | finish {n : ℤ} {k : ℕ} : Reachable c n (k + 1) → Reachable c (release n) k

/-! ### SystemTtsEngine invocation builders (src/unnamed/part_001)

`synthesize` resolves `voice = opts.voice ?? "default"` and
`speed = opts.speed ?? 1.0`, then dispatches on the host platform.  Each
platform builds a fixed argument vector; the caller text travels through a
temp file (macOS, Linux) or an environment variable (Windows). -/

/-- Source `opts.voice ?? "default"` (line 87). -/
def resolveVoice (voice : Option String) : String := voice.getD "default"

/-- Source `opts.speed ?? 1.0` (line 88). -/
def resolveSpeed (speed : Option ℚ) : ℚ := speed.getD 1

/-- macOS: `voice !== "default" ? ["-v", voice] : []` (line 120). -/
def macVoiceArgs (voice : String) : List String :=
  if voice ≠ "default" then ["-v", voice] else []

/-- macOS `say` rate: `Math.round(200 * speed)` (line 122). -/
def macRate (speed : ℚ) : ℤ := round (200 * speed)

/-- macOS argument vector for `say` (lines 123–132). -/
def macArgs (voice : String) (speed : ℚ) (tmpFile : String) : List String :=
  macVoiceArgs voice ++
    ["-r", toString (macRate speed), "-o", tmpFile ++ ".wav",
     "--data-format=LEI16@22050", "-f", tmpFile ++ ".txt"]

/-- Linux: `voice !== "default" ? ["-v", voice] : []` (lines 222–223). -/
def linuxVoiceArgs (voice : String) : List String :=
  if voice ≠ "default" then ["-v", voice] else []

/-- Linux espeak rate: `Math.round(175 * speed)` (line 225). -/
def linuxRate (speed : ℚ) : ℤ := round (175 * speed)

/-- Linux argument vector for `espeak-ng` / `espeak` (lines 226–234). -/
def linuxArgs (voice : String) (speed : ℚ) (tmpFile : String) : List String :=
  linuxVoiceArgs voice ++
    ["-s", toString (linuxRate speed), "-w", tmpFile ++ ".wav", "-f", tmpFile ++ ".txt"]

/-- Windows SelectVoice fragment (lines 164–165): present only for a
non-default voice, and even then it reads the voice from the environment. -/
def winVoiceCmd (voice : String) : String :=
  if voice ≠ "default" then "$s.SelectVoice($env:TTS_VOICE); " else ""

/-- Windows SAPI rate: `Math.max(-10, Math.min(10, Math.round((speed - 1) * 5)))`
(line 167). -/
def winRate (speed : ℚ) : ℤ :=
  max (-10) (min 10 (round ((speed - 1) * 5)))

/-- The PowerShell script (lines 168–176), built with `Array.join(" ")`. -/
def winScript (voice : String) (speed : ℚ) : String :=
  String.intercalate " "
    ["Add-Type -AssemblyName System.Speech;",
     "$s = New-Object System.Speech.Synthesis.SpeechSynthesizer;",
     winVoiceCmd voice,
     "$s.Rate = " ++ toString (winRate speed) ++ ";",
     "$s.SetOutputToWaveFile($env:TTS_OUTPUT);",
     "$s.Speak($env:TTS_INPUT);",
     "$s.Dispose();"]

/-- UTF-16 code units of one character (surrogate pair above U+FFFF). -/
def utf16Units (c : Char) : List ℕ :=
  let n := c.toNat
  if n < 0x10000 then [n]
  else [0xD800 + (n - 0x10000) / 0x400, 0xDC00 + (n - 0x10000) % 0x400]

/-- Source `Buffer.from(script, "utf16le")`: little-endian bytes of the UTF-16 units. -/
def utf16leBytes (s : String) : List ℕ :=
  (s.data.flatMap utf16Units).flatMap (fun u => [u % 256, u / 256])

/-- Character of the standard Base64 alphabet at index `n`. -/
def base64Char (n : ℕ) : Char :=
  ("ABCDEFGHIJKLMNOPQRSTUVWXYZabcdefghijklmnopqrstuvwxyz0123456789+/".data).getD n 'A'

/-- Standard Base64 of a byte list (with `=` padding). -/
def base64Encode : List ℕ → List Char
  | [] => []
  | [a] => [base64Char (a / 4), base64Char (a % 4 * 16), '=', '=']
  | [a, b] =>
      [base64Char (a / 4), base64Char (a % 4 * 16 + b / 16), base64Char (b % 16 * 4), '=']
  | a :: b :: c :: rest =>
      base64Char (a / 4) :: base64Char (a % 4 * 16 + b / 16) ::
        base64Char (b % 16 * 4 + c / 64) :: base64Char (c % 64) :: base64Encode rest

/-- Source `Buffer.from(script, "utf16le").toString("base64")` (line 179). -/
def encodedCommand (s : String) : String := String.mk (base64Encode (utf16leBytes s))

/-- The `TTS_VOICE` environment value (line 188). -/
def winEnvVoice (voice : String) : String := if voice ≠ "default" then voice else ""

/-- One observable external invocation: program, argument vector, extra
environment entries, and temp files written beforehand with caller content. -/
structure Invocation where
  program : String
  args : List String
  env : List (String × String)
  writtenFiles : List (String × String)
deriving DecidableEq

/-- macOS invocation (lines 113–133): text goes into `tmpFile ++ ".txt"`,
never into the argument vector. -/
def macInvocation (text voice : String) (speed : ℚ) (tmpFile : String) : Invocation :=
  { program := "say", args := macArgs voice speed tmpFile, env := [],
    writtenFiles := [(tmpFile ++ ".txt", text)] }

/-- Linux invocation (lines 215–234, preferred binary): text goes into
`tmpFile ++ ".txt"`. -/
def linuxInvocation (text voice : String) (speed : ℚ) (tmpFile : String) : Invocation :=
  { program := "espeak-ng", args := linuxArgs voice speed tmpFile, env := [],
    writtenFiles := [(tmpFile ++ ".txt", text)] }

/-- Windows invocation (lines 160–191): the script is passed Base64-encoded,
the text and voice only through environment variables (entries added on top
of the inherited `process.env`). -/
def winInvocation (text voice : String) (speed : ℚ) (tmpFile : String) : Invocation :=
  { program := "powershell",
    args := ["-NoProfile", "-EncodedCommand", encodedCommand (winScript voice speed)],
    env := [("TTS_INPUT", text), ("TTS_OUTPUT", tmpFile ++ ".wav"),
            ("TTS_VOICE", winEnvVoice voice)],
    writtenFiles := [] }

/-! ### File system and process behaviour model

The temp directory is an association list from paths to contents.
`writeFile` overwrites, `unlink(..).catch(() => {})` is best-effort removal,
`readFileSync` fails exactly when the path is absent.  An external process is
summarised by its terminal behaviour: an asynchronous spawn `error` event
carrying an `err.code`, or a `close` event with a (nullable) exit code plus
whether the tool had created the output file (and with what bytes). -/

/-- Decidable equality for `Except`, used to evaluate concrete runs. -/
instance {ε α : Type} [DecidableEq ε] [DecidableEq α] : DecidableEq (Except ε α) := fun x y =>
  match x, y with
  | .error e, .error e' =>
    if h : e = e' then isTrue (congrArg Except.error h)
    else isFalse (fun hh => h (Except.error.inj hh))
  | .error _, .ok _ => isFalse (fun hh => Except.noConfusion hh)
  | .ok _, .error _ => isFalse (fun hh => Except.noConfusion hh)
  | .ok a, .ok a' =>
    if h : a = a' then isTrue (congrArg Except.ok h)
    else isFalse (fun hh => h (Except.ok.inj hh))

abbrev FS := List (String × Content)

def fsWrite (fs : FS) (path : String) (content : Content) : FS :=
  (path, content) :: fs.filter (fun e => e.1 ≠ path)

def fsUnlink (fs : FS) (path : String) : FS :=
  fs.filter (fun e => e.1 ≠ path)

def fsRead (fs : FS) (path : String) : Option Content :=
  (fs.find? (fun e => e.1 == path)).map (fun e => e.2)

def fsExists (fs : FS) (path : String) : Bool := (fsRead fs path).isSome

/-- Terminal behaviour of one spawned process. -/
inductive ProcBehavior
  | spawnError (code : String)
  | exit (code : Option ℤ) (output : Option Content)
deriving DecidableEq

/-- A spawned process together with the stderr text it emitted. -/
structure ProcRun where
  beh : ProcBehavior
  stderr : String
deriving DecidableEq

/-- Failure outcomes of a synthesis attempt. -/
inductive SynthError
  | spawnErr (code : String)
  | exitErr (msg : String)
  | readErr (path : String)
deriving DecidableEq

/-- JavaScript template rendering of a nullable exit code (`null` prints as
the string `"null"`). -/
def codeStr : Option ℤ → String
  | none => "null"
  | some n => toString n

/-- Effect of the process on the output file: written iff the tool produced it. -/
def applyOutput (fs : FS) (outputPath : String) : Option Content → FS
  | some bytes => fsWrite fs outputPath bytes
  | none => fs

/-- The shared `readResult` idiom (e.g. lines 140–146, 240–248): read the
output file, unlink it on success, reject when the read throws. -/
def readResultFS (fs : FS) (outputPath : String) :
    Except SynthError SynthesisResult × FS :=
  match fsRead fs outputPath with
  | some audio => (Except.ok ⟨audio, AudioFormat.wav⟩, fsUnlink fs outputPath)
  | none => (Except.error (SynthError.readErr outputPath), fs)

/-- Source `writeFile(path, text, "utf8")` stores the UTF-8 bytes of the text. -/
def textBytes (text : String) : Content := text.toUTF8.toList.map UInt8.toNat

/-- Source `synthesizeMac` (lines 107–152): write the input text file, run `say`,
read the output on exit 0 (rejecting on a non-zero or `null` code or a failed
read), and unlink the input file in the inner `finally`. -/
def synthesizeMacFS (beh : ProcBehavior) (text : String) (tmpFile : String)
    (fs : FS) : Except SynthError SynthesisResult × FS :=
  let outputPath := tmpFile ++ ".wav"
  let inputFile := tmpFile ++ ".txt"
  let fs1 := fsWrite fs inputFile (textBytes text)
  let (res, fs2) :=
    match beh with
    | .spawnError c => (Except.error (SynthError.spawnErr c), fs1)
    | .exit code out =>
      let fs' := applyOutput fs1 outputPath out
      if code ≠ some 0 then
        (Except.error (SynthError.exitErr ("say exited with code " ++ codeStr code)), fs')
      else readResultFS fs' outputPath
  (res, fsUnlink fs2 inputFile)

/-- Source `synthesizeWindows` (lines 154–207): no input file (text travels through
the environment); read the output on exit 0. -/
def synthesizeWindowsFS (beh : ProcBehavior) (tmpFile : String)
    (fs : FS) : Except SynthError SynthesisResult × FS :=
  let outputPath := tmpFile ++ ".wav"
  match beh with
  | .spawnError c => (Except.error (SynthError.spawnErr c), fs)
  | .exit code out =>
    let fs' := applyOutput fs outputPath out
    if code ≠ some 0 then
      (Except.error (SynthError.exitErr ("PowerShell exited with code " ++ codeStr code)), fs')
    else readResultFS fs' outputPath

/-- One spawn call as observed on the process boundary. -/
structure SpawnCall where
  program : String
  args : List String
deriving DecidableEq

/-- The fallback branch of `synthesizeLinux` (lines 250–267): run `espeak`
with the same `args`, reject on spawn error or non-zero exit (with the
collected stderr in the message), read the output otherwise. -/
def linuxRunFallback (fallback : ProcRun) (args : List String) (outputPath : String)
    (fs : FS) : Except SynthError SynthesisResult × FS × List SpawnCall :=
  match fallback.beh with
  | .spawnError c => (Except.error (SynthError.spawnErr c), fs, [⟨"espeak", args⟩])
  | .exit code out =>
    let fs' := applyOutput fs outputPath out
    if code ≠ some 0 then
      (Except.error (SynthError.exitErr
        ("espeak exited with code " ++ codeStr code ++ ": " ++ fallback.stderr)),
       fs', [⟨"espeak", args⟩])
    else
      let (r, fs'') := readResultFS fs' outputPath
      (r, fs'', [⟨"espeak", args⟩])

/-- Source `synthesizeLinux` (lines 209–299): write the input file, run `espeak-ng`;
an `ENOENT` spawn error triggers the single `espeak` fallback, any other
spawn error or a non-zero exit is surfaced at once; the inner `finally`
unlinks the input file.  Also returns the spawn trace. -/
def synthesizeLinuxFS (primary fallback : ProcRun) (text voice : String) (speed : ℚ)
    (tmpFile : String) (fs : FS) :
    Except SynthError SynthesisResult × FS × List SpawnCall :=
  let outputPath := tmpFile ++ ".wav"
  let inputFile := tmpFile ++ ".txt"
  let args := linuxArgs voice speed tmpFile
  let fs1 := fsWrite fs inputFile (textBytes text)
  let (res, fs2, calls) :=
    match primary.beh with
    | .spawnError c =>
      if c = "ENOENT" then
        let (r, f, cs) := linuxRunFallback fallback args outputPath fs1
        (r, f, SpawnCall.mk "espeak-ng" args :: cs)
      else (Except.error (SynthError.spawnErr c), fs1, [⟨"espeak-ng", args⟩])
    | .exit code out =>
      let fs' := applyOutput fs1 outputPath out
      if code ≠ some 0 then
        (Except.error (SynthError.exitErr
          ("espeak-ng exited with code " ++ codeStr code ++ ": " ++ primary.stderr)),
         fs', [⟨"espeak-ng", args⟩])
      else
        let (r, f) := readResultFS fs' outputPath
        (r, f, [⟨"espeak-ng", args⟩])
  (res, fsUnlink fs2 inputFile, calls)

/-- Source `SystemTtsEngine.synthesize` (lines 85–105): resolve defaults, dispatch
on the platform, and in the outer `finally` best-effort-unlink the *base*
temp path `tmpFile` (the path the source actually passes to `unlink`). -/
def synthesizeSysFS (os : String) (primary fallback : ProcRun)
    (opts : SynthesisOptions) (tmpFile : String) (fs : FS) :
    Except SynthError SynthesisResult × FS :=
  let text := opts.text
  let voice := resolveVoice opts.voice
  let speed := resolveSpeed opts.speed
  let (res, fs') :=
    if os = "darwin" then synthesizeMacFS primary.beh text tmpFile fs
    else if os = "win32" then synthesizeWindowsFS primary.beh tmpFile fs
    else
      let (r, f, _) := synthesizeLinuxFS primary fallback text voice speed tmpFile fs
      (r, f)
  (res, fsUnlink fs' tmpFile)

/-! ### Voice listing (src/unnamed/part_001, lines 301–418)

Each platform parses the free-text output of its listing tool line by line
and substitutes a single synthetic default record when the tool is missing or
parsing yields nothing.  The listing tool's terminal behaviour is either an
`error` event or a `close` with the collected stdout.  JavaScript's `\s`,
`trim` and `toLowerCase` are modelled with Lean's `Char.isWhitespace`,
`String.trim` and `String.toLower` (the listings are ASCII). -/

inductive ToolBehavior
  | errored
  | output (stdout : String)
deriving DecidableEq

/-- Source `output.split("\n")`. -/
def splitLines (s : String) : List String := s.splitOn "\n"

/-- Source `.filter(Boolean)` over strings: drop empty lines. -/
def filterTruthy (xs : List String) : List String := xs.filter (fun l => l ≠ "")

/-- JS `"a_b".replace("_", "-")`: first occurrence only. -/
def replaceFirstUnderscore : List Char → List Char
  | [] => []
  | c :: cs => if c = '_' then '-' :: cs else c :: replaceFirstUnderscore cs

/-- One macOS line against `/^(\S+)\s+(\S+)/` (lines 321–328): leading
non-space run as the name, at least one space, a second non-space run as the
language (`_` renamed to `-`). -/
def parseMacLine (line : String) : Option VoiceInfo :=
  let cs := line.data
  let name := cs.takeWhile (fun c => ¬ c.isWhitespace)
  let rest := cs.dropWhile (fun c => ¬ c.isWhitespace)
  let spaces := rest.takeWhile Char.isWhitespace
  let lang := (rest.dropWhile Char.isWhitespace).takeWhile (fun c => ¬ c.isWhitespace)
  if name = [] ∨ spaces = [] ∨ lang = [] then none
  else some ⟨String.mk name, String.mk name,
             some (String.mk (replaceFirstUnderscore lang)), none⟩

/-- Source `listVoicesMac` (lines 311–336). -/
def listVoicesMacM : ToolBehavior → List VoiceInfo
  | .errored => [⟨"default", "Default (macOS)", none, none⟩]
  | .output out =>
    let voices := (filterTruthy (splitLines out)).filterMap parseMacLine
    if voices.isEmpty then [⟨"default", "Default", none, none⟩] else voices

/-- One Windows line (lines 352–361): `line.trim().split("|")`, dropped when
the name part is falsy (empty). -/
def parseWinLine (line : String) : Option VoiceInfo :=
  let parts := line.trim.splitOn "|"
  let name := parts.getD 0 ""
  if name = "" then none
  else some ⟨name, name, parts.get? 1, (parts.get? 2).map String.toLower⟩

/-- Source `listVoicesWindows` (lines 338–369). -/
def listVoicesWindowsM : ToolBehavior → List VoiceInfo
  | .errored => [⟨"default", "Default (Windows)", none, none⟩]
  | .output out =>
    let voices := (filterTruthy (splitLines out)).filterMap parseWinLine
    if voices.isEmpty then [⟨"default", "Default", none, none⟩] else voices

/-- Source `line.trim().split(/\s+/)` on a trimmed line: whitespace-separated tokens. -/
def splitWhitespace (s : String) : List String :=
  (s.trim.split Char.isWhitespace).filter (fun t => t ≠ "")

/-- One espeak voices line (lines 407–414): needs at least three tokens;
token 1 is the language, token 2 the name. -/
def parseEspeakLine (line : String) : Option VoiceInfo :=
  let parts := splitWhitespace line
  if parts.length < 3 then none
  else
    let lang := parts.getD 1 ""
    let name := parts.getD 2 lang
    some ⟨name, name, some lang, none⟩

/-- Source `parseEspeakVoices` (lines 398–417): skip the header line, drop empty
lines, parse the rest, substitute the default when nothing parsed. -/
def parseEspeakVoices (out : String) : List VoiceInfo :=
  let voices := (filterTruthy ((splitLines out).drop 1)).filterMap parseEspeakLine
  if voices.isEmpty then [⟨"default", "Default", none, none⟩] else voices

/-- Source `listVoicesLinux` (lines 371–396): `espeak-ng --voices`, falling back to
`espeak --voices` on a spawn error, and to the synthetic Linux default when
the fallback also errors. -/
def listVoicesLinuxM : ToolBehavior → ToolBehavior → List VoiceInfo
  | .output out, _ => parseEspeakVoices out
  | .errored, .output out2 => parseEspeakVoices out2
  | .errored, .errored => [⟨"default", "Default (Linux)", none, none⟩]

/-- Source `LmStudioTtsEngine.listVoices` (lines 538–542). -/
def listVoicesLms : List VoiceInfo := [⟨"default", "Default", none, none⟩]

/-- Source `SystemTtsEngine.listVoices` platform dispatch (lines 301–309). -/
def listVoicesM (os : String) (beh1 beh2 : ToolBehavior) : List VoiceInfo :=
  if os = "darwin" then listVoicesMacM beh1
  else if os = "win32" then listVoicesWindowsM beh1
  else listVoicesLinuxM beh1 beh2

/-! ### Promise settlement (one terminal outcome per invocation)

`synthesizeMac` / `synthesizeWindows` rely on the JavaScript guarantee that a
`Promise` settles at most once (later `resolve`/`reject` calls are no-ops);
`synthesizeLinux` additionally sets the explicit `eventHandled` flag before
acting on a primary event (lines 236–294).  The machines below fold the
handler bodies over the sequence of events the process emits; `settleCount`
counts the `resolve`/`reject` calls that actually took effect. -/

inductive ProcEvent
  | error (code : String)
  | close (code : Option ℤ)
deriving DecidableEq

/-- A settled promise value. -/
inductive Settled
  | resolved (r : SynthesisResult)
  | rejected (e : SynthError)
deriving DecidableEq

structure PromiseState where
  outcome : Option Settled
  settleCount : ℕ
deriving DecidableEq

/-- A `resolve`/`reject` call: takes effect only while the promise is unsettled. -/
def trySettle (st : PromiseState) (s : Settled) : PromiseState :=
  match st.outcome with
  | some _ => st
  | none => ⟨some s, st.settleCount + 1⟩

/-- What `readResult` settles with, given what `readFileSync` returns. -/
def readSettled (output : Option Content) (outputPath : String) : Settled :=
  match output with
  | some audio => .resolved ⟨audio, AudioFormat.wav⟩
  | none => .rejected (.readErr outputPath)

/-- The macOS handlers (lines 134–147): `error` rejects, `close` rejects on a
non-zero code and otherwise resolves/rejects from the output read.  `output`
is what `readFileSync(outputPath)` would yield at `close` time. -/
def macEventStep (output : Option Content) (st : PromiseState) (e : ProcEvent) :
    PromiseState :=
  match e with
  | .error c => trySettle st (.rejected (.spawnErr c))
  | .close code =>
    if code ≠ some 0 then
      trySettle st (.rejected (.exitErr ("say exited with code " ++ codeStr code)))
    else trySettle st (readSettled output "out.wav")

/-- The Windows handlers (lines 192–205), same shape as macOS. -/
def winEventStep (output : Option Content) (st : PromiseState) (e : ProcEvent) :
    PromiseState :=
  match e with
  | .error c => trySettle st (.rejected (.spawnErr c))
  | .close code =>
    if code ≠ some 0 then
      trySettle st (.rejected (.exitErr ("PowerShell exited with code " ++ codeStr code)))
    else trySettle st (readSettled output "out.wav")

def macRunEvents (output : Option Content) (evs : List ProcEvent) : PromiseState :=
  evs.foldl (macEventStep output) ⟨none, 0⟩

def winRunEvents (output : Option Content) (evs : List ProcEvent) : PromiseState :=
  evs.foldl (winEventStep output) ⟨none, 0⟩

structure LinuxPromiseState where
  outcome : Option Settled
  settleCount : ℕ
  eventHandled : Bool
deriving DecidableEq

inductive LinuxEvent
  | primaryError (code : String)
  | primaryClose (code : Option ℤ)
  | fallbackError (code : String)
  | fallbackClose (code : Option ℤ)
deriving DecidableEq

def linuxTrySettle (st : LinuxPromiseState) (s : Settled) : LinuxPromiseState :=
  match st.outcome with
  | some _ => st
  | none => ⟨some s, st.settleCount + 1, st.eventHandled⟩

/-- The Linux handlers (lines 250–294): primary events are ignored once
`eventHandled` is set; a primary `ENOENT` error starts the fallback without
settling; fallback handlers settle through the promise alone. -/
def linuxEventStep (output : Option Content) (st : LinuxPromiseState) (e : LinuxEvent) :
    LinuxPromiseState :=
  match e with
  | .primaryError c =>
    if st.eventHandled then st
    else
      let st' : LinuxPromiseState := { st with eventHandled := true }
      if c = "ENOENT" then st'
      else linuxTrySettle st' (.rejected (.spawnErr c))
  | .primaryClose code =>
    if st.eventHandled then st
    else
      let st' : LinuxPromiseState := { st with eventHandled := true }
      if code ≠ some 0 then
        linuxTrySettle st' (.rejected (.exitErr ("espeak-ng exited with code " ++ codeStr code)))
      else linuxTrySettle st' (readSettled output "out.wav")
  | .fallbackError c => linuxTrySettle st (.rejected (.spawnErr c))
  | .fallbackClose code =>
    if code ≠ some 0 then
      linuxTrySettle st (.rejected (.exitErr ("espeak exited with code " ++ codeStr code)))
    else linuxTrySettle st (readSettled output "out.wav")

def linuxRunEvents (output : Option Content) (evs : List LinuxEvent) : LinuxPromiseState :=
  evs.foldl (linuxEventStep output) ⟨none, 0, false⟩

/-! ### LmStudioTtsEngine (src/unnamed/part_001, lines 457–542)

The SDK client and the HTTP server are behaviour parameters: the client call
`llm.listLoaded()` either throws or yields the loaded models (each with a
`path` and an `identifier`), and `llm.load(...)` either succeeds or throws;
the HTTP `POST /v1/audio/speech` either returns the audio bytes or a
non-`ok` status with an optional parsed error message and a status text. -/

structure LoadedModel where
  path : String
  identifier : String
deriving DecidableEq

/-- Behaviour of the SDK client during one `ensureModelLoaded` attempt. -/
inductive ClientBehavior
  | listErr
  | listOk (models : List LoadedModel) (loadOk : Bool)
deriving DecidableEq

/-- Source `ensureModelLoaded` (lines 477–495) acting on the `modelLoaded` flag.
Returns the new flag and whether any model-load work (the `listLoaded` call)
was performed.  The flag is set only when the `try` block completes; a throw
anywhere inside it is swallowed and leaves the flag untouched. -/
def ensureModelLoaded (hasClient : Bool) (modelKey : Option String)
    (beh : ClientBehavior) (modelLoaded : Bool) : Bool × Bool :=
  if modelLoaded ∨ ¬ hasClient ∨ modelKey = none then (modelLoaded, false)
  else
    match beh with
    | .listErr => (modelLoaded, true)
    | .listOk models loadOk =>
      let key := modelKey.getD ""
      let alreadyLoaded := models.any (fun m => m.path == key || m.identifier == key)
      if alreadyLoaded then (true, true)
      else if loadOk then (true, true)
      else (modelLoaded, true)

/-- Behaviour of the remote `POST /v1/audio/speech` call. -/
inductive RemoteResp
  | ok (bytes : Content)
  | fail (status : ℕ) (message : Option String) (statusText : String)
deriving DecidableEq

/-- The JSON body sent to the remote server (lines 500–513). -/
structure SpeechRequestBody where
  input : String
  response_format : AudioFormat
  model : Option String
  voice : Option String
  speed : Option ℚ
deriving DecidableEq

def lmsRequestBody (modelKey : Option String) (opts : SynthesisOptions) :
    SpeechRequestBody :=
  { input := opts.text, response_format := opts.format.getD AudioFormat.wav,
    model := modelKey, voice := opts.voice, speed := opts.speed }

/-- The HTTP part of `LmStudioTtsEngine.synthesize` (lines 500–535): on a
non-ok response raise the parsed error message (else the status text); on an
ok response return the body bytes with the *requested* format echoed back. -/
def lmsSynthesizeHttp (opts : SynthesisOptions) (resp : RemoteResp) :
    Except String SynthesisResult :=
  let format := opts.format.getD AudioFormat.wav
  match resp with
  | .ok bytes => Except.ok ⟨bytes, format⟩
  | .fail status message statusText =>
    Except.error ("LM Studio TTS request failed (" ++ toString status ++ "): "
      ++ message.getD statusText)

/-- Source `LmStudioTtsEngine.synthesize` (lines 497–536): run `ensureModelLoaded`
first (its outcome never short-circuits the HTTP attempt), then the HTTP
call.  Returns the new `modelLoaded` flag, whether model-load work happened,
and the synthesis outcome. -/
def lmsSynthesize (hasClient : Bool) (modelKey : Option String)
    (beh : ClientBehavior) (modelLoaded : Bool)
    (opts : SynthesisOptions) (resp : RemoteResp) :
    Bool × Bool × Except String SynthesisResult :=
  let (st', work) := ensureModelLoaded hasClient modelKey beh modelLoaded
  (st', work, lmsSynthesizeHttp opts resp)

/-! ## Theorems -/

theorem tryAdmit_refuse {c : ℕ} {n : ℤ} (h : (c : ℤ) ≤ n) :
    tryAdmit c n = (false, n) := by
  unfold tryAdmit
  rw [if_pos h]

theorem tryAdmit_accepts {c : ℕ} {n : ℤ} (h : n < (c : ℤ)) :
    tryAdmit c n = (true, n + 1) := by
  unfold tryAdmit
  rw [if_neg (not_le.mpr h)]

theorem lt_of_tryAdmit_true {c : ℕ} {n : ℤ} (h : (tryAdmit c n).1 = true) :
    n < (c : ℤ) := by
  by_contra hn
  rw [not_lt] at hn
  rw [tryAdmit_refuse hn] at h
  simp at h

/-- Ghost invariant of the admission gate: the counter equals the number of
in-flight admitted requests, which never exceeds the ceiling. -/
theorem reachable_inv {c : ℕ} {n : ℤ} {k : ℕ} (h : Reachable c n k) :
    n = (k : ℤ) ∧ k ≤ c := by
  induction h with
  | init => simp
  | enter h hadm ih =>
    obtain ⟨hn, hk⟩ := ih
    have hlt := lt_of_tryAdmit_true hadm
    rw [tryAdmit_accepts hlt]
    refine ⟨?_, ?_⟩ <;> omega
  | refuse _ _ ih => exact ih
  | finish h ih =>
    obtain ⟨hn, hk⟩ := ih
    unfold release
    refine ⟨?_, ?_⟩ <;> omega

/-- C2: at or above the ceiling an admission attempt is refused without
changing the counter; below it the counter is incremented before the engine
call and decremented exactly once on every exit path (success and error alike
end at the initial value); every reachable counter value stays within
`[0, maxConcurrency]`; and after one release from a saturated gate exactly
one subsequent admission succeeds. -/
theorem C2_admission_gate (c : ℕ) (n : ℤ) (k : ℕ) (synth : Except String SynthesisResult) :
    ((c : ℤ) ≤ n → tryAdmit c n = (false, n)) ∧
    (n < (c : ℤ) → tryAdmit c n = (true, n + 1)) ∧
    (n < (c : ℤ) → (speechHandler c n synth).countDuringSynth = some (n + 1) ∧
      (speechHandler c n synth).finalCount = n) ∧
    ((c : ℤ) ≤ n → (speechHandler c n synth).response = HandlerResponse.tooMany ∧
      (speechHandler c n synth).finalCount = n) ∧
    (Reachable c n k → 0 ≤ n ∧ n ≤ (c : ℤ)) ∧
    (n = (c : ℤ) → (tryAdmit c (release n)).1 = true ∧
      (tryAdmit c (tryAdmit c (release n)).2).1 = false) := by
  refine ⟨fun h => tryAdmit_refuse h, fun h => tryAdmit_accepts h, fun h => ?_, fun h => ?_,
    fun h => ?_, fun h => ?_⟩
  · unfold speechHandler
    rw [tryAdmit_accepts h]
    unfold release
    cases synth <;> simp
  · unfold speechHandler
    rw [tryAdmit_refuse h]
    simp
  · obtain ⟨hn, hk⟩ := reachable_inv h
    omega
  · subst h
    have h1 : (c : ℤ) - 1 < (c : ℤ) := by omega
    unfold release
    rw [tryAdmit_accepts h1]
    have h2 : (c : ℤ) - 1 + 1 = (c : ℤ) := by ring
    rw [h2, tryAdmit_refuse (le_refl _)]
    exact ⟨rfl, rfl⟩

/-- C2 witness: concrete gate with ceiling 1. -/
theorem C2_admission_gate_witness :
    tryAdmit 1 1 = (false, 1) ∧ tryAdmit 1 0 = (true, 1) ∧
    (speechHandler 1 0 (Except.error "boom")).finalCount = 0 ∧
    (speechHandler 1 1 (Except.error "boom")).response = HandlerResponse.tooMany ∧
    (0 ≤ (0 : ℤ) ∧ (0 : ℤ) ≤ ((1 : ℕ) : ℤ)) ∧
    (tryAdmit 1 (release 1)).1 = true :=
  ⟨(C2_admission_gate 1 1 0 (Except.error "boom")).1 (by norm_num),
   (C2_admission_gate 1 0 0 (Except.error "boom")).2.1 (by norm_num),
   ((C2_admission_gate 1 0 0 (Except.error "boom")).2.2.1 (by norm_num)).2,
   ((C2_admission_gate 1 1 0 (Except.error "boom")).2.2.2.1 (by norm_num)).1,
   (C2_admission_gate 1 0 0 (Except.error "boom")).2.2.2.2.1 Reachable.init,
   ((C2_admission_gate 1 1 0 (Except.error "boom")).2.2.2.2.2 (by norm_num)).1⟩

/-- C1: the cleanup invariant fails on the code.  Concrete failing run on the
Windows path: PowerShell creates the output file and then exits with code 1;
`synthesize` returns the error, the outer `finally` unlinks only the base
temp path (at which no file was ever created), and the `.wav` scratch file is
still present after the call — contradicting the claim that every scratch
path is gone on the error exit path. -/
theorem C1_cleanup_failure :
    (synthesizeSysFS "win32" ⟨ProcBehavior.exit (some 1) (some [222, 173, 190, 239]), ""⟩
        ⟨ProcBehavior.exit (some 0) none, ""⟩ ⟨"hello", none, none, none⟩
        "/tmp/lms-speaks-0" []).1
      = Except.error (SynthError.exitErr "PowerShell exited with code 1") ∧
    fsExists (synthesizeSysFS "win32" ⟨ProcBehavior.exit (some 1) (some [222, 173, 190, 239]), ""⟩
        ⟨ProcBehavior.exit (some 0) none, ""⟩ ⟨"hello", none, none, none⟩
        "/tmp/lms-speaks-0" []).2 "/tmp/lms-speaks-0.wav" = true ∧
    fsExists (synthesizeSysFS "win32" ⟨ProcBehavior.exit (some 1) (some [222, 173, 190, 239]), ""⟩
        ⟨ProcBehavior.exit (some 0) none, ""⟩ ⟨"hello", none, none, none⟩
        "/tmp/lms-speaks-0" []).2 "/tmp/lms-speaks-0.txt" = false ∧
    fsExists (synthesizeSysFS "win32" ⟨ProcBehavior.exit (some 1) (some [222, 173, 190, 239]), ""⟩
        ⟨ProcBehavior.exit (some 0) none, ""⟩ ⟨"hello", none, none, none⟩
        "/tmp/lms-speaks-0" []).2 "/tmp/lms-speaks-0" = false := by
  refine ⟨by decide, by decide, by decide, by decide⟩

theorem fsRead_fsWrite_self (fs : FS) (path : String) (content : Content) :
    fsRead (fsWrite fs path content) path = some content := by
  simp [fsRead, fsWrite]

theorem linuxRunFallback_calls (fallback : ProcRun) (args : List String)
    (outputPath : String) (fs : FS) :
    (linuxRunFallback fallback args outputPath fs).2.2 = [⟨"espeak", args⟩] := by
  obtain ⟨beh, stderr⟩ := fallback
  cases beh with
  | spawnError c => simp [linuxRunFallback]
  | exit code out =>
    simp only [linuxRunFallback]
    split
    · simp
    · unfold readResultFS
      split <;> simp_all

/-- C3: an `ENOENT` spawn failure of `espeak-ng` triggers exactly one retry
with `espeak` on the identical argument vector; any other spawn error and any
non-zero exit of the preferred binary surface immediately with no second
spawn; and when the fallback exits 0 having produced the output file, the
call succeeds with format `wav`. -/
theorem C3_linux_fallback (primary fallback : ProcRun) (text voice : String) (speed : ℚ)
    (tmpFile : String) (fs : FS) :
    (primary.beh = ProcBehavior.spawnError "ENOENT" →
      (synthesizeLinuxFS primary fallback text voice speed tmpFile fs).2.2 =
        [⟨"espeak-ng", linuxArgs voice speed tmpFile⟩,
         ⟨"espeak", linuxArgs voice speed tmpFile⟩]) ∧
    (∀ c, primary.beh = ProcBehavior.spawnError c → c ≠ "ENOENT" →
      (synthesizeLinuxFS primary fallback text voice speed tmpFile fs).2.2 =
        [⟨"espeak-ng", linuxArgs voice speed tmpFile⟩] ∧
      (synthesizeLinuxFS primary fallback text voice speed tmpFile fs).1 =
        Except.error (SynthError.spawnErr c)) ∧
    (∀ code out, primary.beh = ProcBehavior.exit code out → code ≠ some 0 →
      (synthesizeLinuxFS primary fallback text voice speed tmpFile fs).2.2 =
        [⟨"espeak-ng", linuxArgs voice speed tmpFile⟩] ∧
      (synthesizeLinuxFS primary fallback text voice speed tmpFile fs).1 =
        Except.error (SynthError.exitErr
          ("espeak-ng exited with code " ++ codeStr code ++ ": " ++ primary.stderr))) ∧
    (∀ bytes, primary.beh = ProcBehavior.spawnError "ENOENT" →
      fallback.beh = ProcBehavior.exit (some 0) (some bytes) →
      (synthesizeLinuxFS primary fallback text voice speed tmpFile fs).1 =
        Except.ok ⟨bytes, AudioFormat.wav⟩) := by
  refine ⟨fun h => ?_, fun c h hne => ?_, fun code out h hcode => ?_, fun bytes h1 h2 => ?_⟩
  · simp only [synthesizeLinuxFS, h]
    simp [linuxRunFallback_calls]
  · constructor <;> simp [synthesizeLinuxFS, h, hne]
  · constructor <;> simp [synthesizeLinuxFS, h, hcode]
  · simp only [synthesizeLinuxFS, h1]
    simp [linuxRunFallback, h2, applyOutput, readResultFS, fsRead_fsWrite_self]

/-- C3 witness: a missing `espeak-ng` with a succeeding `espeak`. -/
theorem C3_linux_fallback_witness :
    (synthesizeLinuxFS ⟨ProcBehavior.spawnError "ENOENT", ""⟩
        ⟨ProcBehavior.exit (some 0) (some [1, 2]), ""⟩ "hi" "default" 1 "/t" []).2.2 =
      [⟨"espeak-ng", linuxArgs "default" 1 "/t"⟩, ⟨"espeak", linuxArgs "default" 1 "/t"⟩] ∧
    (synthesizeLinuxFS ⟨ProcBehavior.spawnError "ENOENT", ""⟩
        ⟨ProcBehavior.exit (some 0) (some [1, 2]), ""⟩ "hi" "default" 1 "/t" []).1 =
      Except.ok ⟨[1, 2], AudioFormat.wav⟩ ∧
    (synthesizeLinuxFS ⟨ProcBehavior.spawnError "EACCES", ""⟩
        ⟨ProcBehavior.exit (some 0) (some [1, 2]), ""⟩ "hi" "default" 1 "/t" []).1 =
      Except.error (SynthError.spawnErr "EACCES") ∧
    (synthesizeLinuxFS ⟨ProcBehavior.exit (some 2) none, "bad"⟩
        ⟨ProcBehavior.exit (some 0) (some [1, 2]), ""⟩ "hi" "default" 1 "/t" []).1 =
      Except.error (SynthError.exitErr "espeak-ng exited with code 2: bad") :=
  ⟨(C3_linux_fallback ⟨ProcBehavior.spawnError "ENOENT", ""⟩
      ⟨ProcBehavior.exit (some 0) (some [1, 2]), ""⟩ "hi" "default" 1 "/t" []).1 rfl,
   (C3_linux_fallback ⟨ProcBehavior.spawnError "ENOENT", ""⟩
      ⟨ProcBehavior.exit (some 0) (some [1, 2]), ""⟩ "hi" "default" 1 "/t" []).2.2.2
      [1, 2] rfl rfl,
   ((C3_linux_fallback ⟨ProcBehavior.spawnError "EACCES", ""⟩
      ⟨ProcBehavior.exit (some 0) (some [1, 2]), ""⟩ "hi" "default" 1 "/t" []).2.1
      "EACCES" rfl (by decide)).2,
   by
    have h := ((C3_linux_fallback ⟨ProcBehavior.exit (some 2) none, "bad"⟩
      ⟨ProcBehavior.exit (some 0) (some [1, 2]), ""⟩ "hi" "default" 1 "/t" []).2.2.1
      (some 2) none rfl (by decide)).2
    simpa [codeStr] using h⟩

/-- C5: for every speed in `[0.25, 4.0]` the rate handed to the platform tool
is the fixed linear formula rounded to the nearest integer (`Math.round`
rounds half-way cases up, as does `round`): `round(200·s)` wpm in the macOS
argument vector, `round(175·s)` wpm in the Linux argument vector, and
`clamp(round((s−1)·5), −10, 10)` in the PowerShell script; the Windows rate
always stays within `[-10, 10]`, and speed 4.0 yields Windows rate 10. -/
theorem C5_rate_formulas (s : ℚ) (voice tmpFile : String)
    (_h1 : 1 / 4 ≤ s) (_h2 : s ≤ 4) :
    macArgs voice s tmpFile =
      macVoiceArgs voice ++ ["-r", toString (round ((200 : ℚ) * s)), "-o",
        tmpFile ++ ".wav", "--data-format=LEI16@22050", "-f", tmpFile ++ ".txt"] ∧
    linuxArgs voice s tmpFile =
      linuxVoiceArgs voice ++ ["-s", toString (round ((175 : ℚ) * s)), "-w",
        tmpFile ++ ".wav", "-f", tmpFile ++ ".txt"] ∧
    winScript voice s = String.intercalate " "
      ["Add-Type -AssemblyName System.Speech;",
       "$s = New-Object System.Speech.Synthesis.SpeechSynthesizer;",
       winVoiceCmd voice,
       "$s.Rate = " ++ toString (max (-10) (min 10 (round ((s - 1) * 5)))) ++ ";",
       "$s.SetOutputToWaveFile($env:TTS_OUTPUT);",
       "$s.Speak($env:TTS_INPUT);",
       "$s.Dispose();"] ∧
    |(200 : ℚ) * s - (macRate s : ℚ)| ≤ 1 / 2 ∧
    |(175 : ℚ) * s - (linuxRate s : ℚ)| ≤ 1 / 2 ∧
    |(s - 1) * 5 - (round ((s - 1) * 5) : ℚ)| ≤ 1 / 2 ∧
    -10 ≤ winRate s ∧ winRate s ≤ 10 ∧ winRate 4 = 10 := by
  refine ⟨rfl, rfl, rfl, abs_sub_round _, abs_sub_round _, abs_sub_round _, ?_, ?_, ?_⟩
  · exact le_max_left _ _
  · exact max_le (by norm_num) (min_le_left _ _)
  · unfold winRate
    have h : ((4 : ℚ) - 1) * 5 = ((15 : ℤ) : ℚ) := by norm_num
    rw [h, round_intCast]
    decide

/-- C5 witness: the theorem applied at speed 1 (and its speed-4 clamp fact). -/
theorem C5_rate_formulas_witness :
    |(200 : ℚ) * 1 - (macRate 1 : ℚ)| ≤ 1 / 2 ∧
    -10 ≤ winRate 1 ∧ winRate 1 ≤ 10 ∧ winRate 4 = 10 :=
  ⟨(C5_rate_formulas 1 "default" "/t" (by norm_num) (by norm_num)).2.2.2.1,
   (C5_rate_formulas 1 "default" "/t" (by norm_num) (by norm_num)).2.2.2.2.2.2.1,
   (C5_rate_formulas 1 "default" "/t" (by norm_num) (by norm_num)).2.2.2.2.2.2.2.1,
   (C5_rate_formulas 1 "default" "/t" (by norm_num) (by norm_num)).2.2.2.2.2.2.2.2⟩

/-- C6 counterexample: for the empty-string voice (which the engine does not
normalise — only absent voices become `"default"`), every platform emits a
voice selector: `["-v", ""]` on macOS and Linux, and the `SelectVoice` step on
Windows.  This refutes the claim that an empty voice omits the selector. -/
theorem C6_empty_voice_counterexample :
    macVoiceArgs "" = ["-v", ""] ∧ linuxVoiceArgs "" = ["-v", ""] ∧
    winVoiceCmd "" = "$s.SelectVoice($env:TTS_VOICE); " ∧ winEnvVoice "" = "" := by
  decide

/-- C6 (amended): an absent voice or the literal `"default"` omits every
voice selector (no `-v` argument, no `SelectVoice` step, empty `TTS_VOICE`);
any other voice value — the empty string included — is passed explicitly as
an argument-vector entry (macOS, Linux) or environment variable (Windows). -/
theorem C6_voice_selection (voiceOpt : Option String) (v : String) :
    (voiceOpt = none ∨ voiceOpt = some "default" →
      resolveVoice voiceOpt = "default" ∧
      macVoiceArgs (resolveVoice voiceOpt) = [] ∧
      linuxVoiceArgs (resolveVoice voiceOpt) = [] ∧
      winVoiceCmd (resolveVoice voiceOpt) = "" ∧
      winEnvVoice (resolveVoice voiceOpt) = "") ∧
    (v ≠ "default" →
      macVoiceArgs v = ["-v", v] ∧ linuxVoiceArgs v = ["-v", v] ∧
      winVoiceCmd v = "$s.SelectVoice($env:TTS_VOICE); " ∧ winEnvVoice v = v) := by
  constructor
  · rintro (rfl | rfl) <;>
      simp [resolveVoice, macVoiceArgs, linuxVoiceArgs, winVoiceCmd, winEnvVoice]
  · intro h
    simp [macVoiceArgs, linuxVoiceArgs, winVoiceCmd, winEnvVoice, h]

/-- C6 witness: an absent voice and the explicit voice `"Alex"`. -/
theorem C6_voice_selection_witness :
    macVoiceArgs (resolveVoice none) = [] ∧ macVoiceArgs "Alex" = ["-v", "Alex"] :=
  ⟨((C6_voice_selection none "Alex").1 (Or.inl rfl)).2.1,
   ((C6_voice_selection none "Alex").2 (by decide)).1⟩

/-- C8: two requests differing only in their text lead to the same program,
the same argument vector and (on Windows) the same encoded script; the text
reaches the tool only through the written temp file (macOS, Linux) or the
`TTS_INPUT` environment variable (Windows), never inside the command. -/
theorem C8_text_noninterference (t₁ t₂ voice : String) (speed : ℚ) (tmpFile : String) :
    (macInvocation t₁ voice speed tmpFile).program =
      (macInvocation t₂ voice speed tmpFile).program ∧
    (macInvocation t₁ voice speed tmpFile).args =
      (macInvocation t₂ voice speed tmpFile).args ∧
    (linuxInvocation t₁ voice speed tmpFile).program =
      (linuxInvocation t₂ voice speed tmpFile).program ∧
    (linuxInvocation t₁ voice speed tmpFile).args =
      (linuxInvocation t₂ voice speed tmpFile).args ∧
    (winInvocation t₁ voice speed tmpFile).program =
      (winInvocation t₂ voice speed tmpFile).program ∧
    (winInvocation t₁ voice speed tmpFile).args =
      (winInvocation t₂ voice speed tmpFile).args ∧
    (winInvocation t₁ voice speed tmpFile).args =
      ["-NoProfile", "-EncodedCommand", encodedCommand (winScript voice speed)] ∧
    (macInvocation t₁ voice speed tmpFile).writtenFiles = [(tmpFile ++ ".txt", t₁)] ∧
    (linuxInvocation t₁ voice speed tmpFile).writtenFiles = [(tmpFile ++ ".txt", t₁)] ∧
    (winInvocation t₁ voice speed tmpFile).writtenFiles = [] ∧
    (winInvocation t₁ voice speed tmpFile).env =
      [("TTS_INPUT", t₁), ("TTS_OUTPUT", tmpFile ++ ".wav"),
       ("TTS_VOICE", winEnvVoice voice)] :=
  ⟨rfl, rfl, rfl, rfl, rfl, rfl, rfl, rfl, rfl, rfl, rfl⟩

/-- C10: a successful remote synthesis echoes the requested format (or `wav`
when none was requested) no matter what bytes the server returned; the full
`synthesize` pipeline returns exactly this HTTP result. -/
theorem C10_format_echo (hasClient : Bool) (modelKey : Option String)
    (beh : ClientBehavior) (st : Bool) (opts : SynthesisOptions) (bytes : Content) :
    lmsSynthesizeHttp opts (RemoteResp.ok bytes) =
      Except.ok ⟨bytes, opts.format.getD AudioFormat.wav⟩ ∧
    (lmsSynthesize hasClient modelKey beh st opts (RemoteResp.ok bytes)).2.2 =
      Except.ok ⟨bytes, opts.format.getD AudioFormat.wav⟩ :=
  ⟨rfl, rfl⟩

/-- C7 counterexample: with a client and a model key configured and a first
`listLoaded` call that throws, the first synthesize call performs model-load
work, swallows the failure and leaves `modelLoaded` unset — and the second
synthesize call performs model-load work again, refuting "at most once per
strategy lifetime regardless of whether the first attempt succeeded". -/
theorem C7_retry_counterexample :
    (lmsSynthesize true (some "m") ClientBehavior.listErr false
        ⟨"hi", none, none, none⟩ (RemoteResp.ok [])).2.1 = true ∧
    (lmsSynthesize true (some "m") ClientBehavior.listErr
        (lmsSynthesize true (some "m") ClientBehavior.listErr false
          ⟨"hi", none, none, none⟩ (RemoteResp.ok [])).1
        ⟨"hi", none, none, none⟩ (RemoteResp.ok [])).2.1 = true := by
  decide

/-- C7 (amended): the ensure-model-loaded step precedes the HTTP call, whose
outcome is returned unchanged (step failures are swallowed); once the flag is
set no later call performs model-load work; the step is re-attempted on each
call while the flag is unset and a client plus model key are configured. -/
theorem C7_ensure_model_loaded (hasClient : Bool) (modelKey : Option String)
    (beh : ClientBehavior) (st : Bool) (opts : SynthesisOptions) (resp : RemoteResp) :
    (st = true → ensureModelLoaded hasClient modelKey beh st = (true, false)) ∧
    ((ensureModelLoaded hasClient modelKey beh st).1 = true →
      ∀ beh₂, ensureModelLoaded hasClient modelKey beh₂
        (ensureModelLoaded hasClient modelKey beh st).1 = (true, false)) ∧
    (lmsSynthesize hasClient modelKey beh st opts resp).2.2 = lmsSynthesizeHttp opts resp ∧
    (st = false → hasClient = true → ∀ k, modelKey = some k →
      (ensureModelLoaded hasClient modelKey beh st).2 = true) := by
  refine ⟨fun h => ?_, fun h beh₂ => ?_, rfl, fun h hc k hk => ?_⟩
  · subst h
    simp [ensureModelLoaded]
  · rw [h]
    simp [ensureModelLoaded]
  · subst h
    subst hc
    subst hk
    cases beh with
    | listErr => simp [ensureModelLoaded]
    | listOk models loadOk =>
      simp only [ensureModelLoaded]
      split
      · simp_all
      · split
        · simp
        · split <;> simp

/-- C7 witness: a successful first attempt makes later calls no-ops; an
unset flag with client and key re-attempts. -/
theorem C7_ensure_model_loaded_witness :
    ensureModelLoaded true (some "m") (ClientBehavior.listOk [] true) true = (true, false) ∧
    (ensureModelLoaded true (some "m") ClientBehavior.listErr false).2 = true :=
  ⟨(C7_ensure_model_loaded true (some "m") (ClientBehavior.listOk [] true) true
      ⟨"hi", none, none, none⟩ (RemoteResp.ok [])).1 rfl,
   (C7_ensure_model_loaded true (some "m") ClientBehavior.listErr false
      ⟨"hi", none, none, none⟩ (RemoteResp.ok [])).2.2.2 rfl rfl "m" rfl⟩

theorem listVoicesMacM_ne_nil (b : ToolBehavior) : listVoicesMacM b ≠ [] := by
  cases b with
  | errored => simp [listVoicesMacM]
  | output out =>
    simp only [listVoicesMacM]
    split
    · simp
    · next h => simpa using h

theorem listVoicesWindowsM_ne_nil (b : ToolBehavior) : listVoicesWindowsM b ≠ [] := by
  cases b with
  | errored => simp [listVoicesWindowsM]
  | output out =>
    simp only [listVoicesWindowsM]
    split
    · simp
    · next h => simpa using h

theorem parseEspeakVoices_ne_nil (out : String) : parseEspeakVoices out ≠ [] := by
  simp only [parseEspeakVoices]
  split
  · simp
  · next h => simpa using h

theorem listVoicesLinuxM_ne_nil (b1 b2 : ToolBehavior) : listVoicesLinuxM b1 b2 ≠ [] := by
  cases b1 with
  | output out => exact parseEspeakVoices_ne_nil out
  | errored =>
    cases b2 with
    | output out2 => exact parseEspeakVoices_ne_nil out2
    | errored => simp [listVoicesLinuxM]

/-- C4: on every platform, for every combination of listing-tool behaviours
(absent tool, empty output, fully malformed output, anything else),
`listVoices` returns a non-empty list — a synthetic `"default"` record is
substituted whenever parsing yields nothing or the tool is missing; the
remote engine's fixed list is non-empty too. -/
theorem C4_voices_nonempty (os : String) (beh1 beh2 : ToolBehavior) :
    listVoicesM os beh1 beh2 ≠ [] ∧ listVoicesLms ≠ [] := by
  refine ⟨?_, by simp [listVoicesLms]⟩
  unfold listVoicesM
  split
  · exact listVoicesMacM_ne_nil beh1
  · split
    · exact listVoicesWindowsM_ne_nil beh1
    · exact listVoicesLinuxM_ne_nil beh1 beh2

theorem foldl_preserve {σ ε : Type} (P : σ → Prop) (step : σ → ε → σ)
    (h : ∀ s e, P s → P (step s e)) (evs : List ε) (s : σ) (hs : P s) :
    P (evs.foldl step s) := by
  induction evs generalizing s with
  | nil => exact hs
  | cons e rest ih => exact ih _ (h _ _ hs)

/-- Settle-once accounting for a promise: the effective-settle counter tracks
whether the promise is settled. -/
def promiseInv (st : PromiseState) : Prop :=
  st.settleCount = if st.outcome.isSome then 1 else 0

theorem trySettle_inv (st : PromiseState) (s : Settled) (h : promiseInv st) :
    promiseInv (trySettle st s) := by
  unfold promiseInv at h ⊢
  cases ho : st.outcome <;> simp [trySettle, ho] <;> simp [ho] at h <;> omega

theorem trySettle_isSome (st : PromiseState) (s : Settled) :
    (trySettle st s).outcome.isSome = true := by
  cases ho : st.outcome <;> simp [trySettle, ho]

theorem macEventStep_inv (output : Option Content) (st : PromiseState) (e : ProcEvent)
    (h : promiseInv st) : promiseInv (macEventStep output st e) := by
  cases e with
  | error c => exact trySettle_inv _ _ h
  | close code =>
    simp only [macEventStep]
    split <;> exact trySettle_inv _ _ h

theorem macEventStep_isSome (output : Option Content) (st : PromiseState) (e : ProcEvent) :
    (macEventStep output st e).outcome.isSome = true := by
  cases e with
  | error c => exact trySettle_isSome _ _
  | close code =>
    simp only [macEventStep]
    split <;> exact trySettle_isSome _ _

theorem winEventStep_inv (output : Option Content) (st : PromiseState) (e : ProcEvent)
    (h : promiseInv st) : promiseInv (winEventStep output st e) := by
  cases e with
  | error c => exact trySettle_inv _ _ h
  | close code =>
    simp only [winEventStep]
    split <;> exact trySettle_inv _ _ h

theorem winEventStep_isSome (output : Option Content) (st : PromiseState) (e : ProcEvent) :
    (winEventStep output st e).outcome.isSome = true := by
  cases e with
  | error c => exact trySettle_isSome _ _
  | close code =>
    simp only [winEventStep]
    split <;> exact trySettle_isSome _ _

theorem macRunEvents_inv (output : Option Content) (evs : List ProcEvent) :
    promiseInv (macRunEvents output evs) :=
  foldl_preserve promiseInv _ (fun s e h => macEventStep_inv output s e h) evs
    ⟨none, 0⟩ (by simp [promiseInv])

theorem winRunEvents_inv (output : Option Content) (evs : List ProcEvent) :
    promiseInv (winRunEvents output evs) :=
  foldl_preserve promiseInv _ (fun s e h => winEventStep_inv output s e h) evs
    ⟨none, 0⟩ (by simp [promiseInv])

theorem macRunEvents_isSome (output : Option Content) (e : ProcEvent) (evs : List ProcEvent) :
    (macRunEvents output (e :: evs)).outcome.isSome = true := by
  unfold macRunEvents
  rw [List.foldl_cons]
  exact foldl_preserve (fun st => st.outcome.isSome = true) _
    (fun s e' _ => macEventStep_isSome output s e') evs _ (macEventStep_isSome output _ e)

theorem winRunEvents_isSome (output : Option Content) (e : ProcEvent) (evs : List ProcEvent) :
    (winRunEvents output (e :: evs)).outcome.isSome = true := by
  unfold winRunEvents
  rw [List.foldl_cons]
  exact foldl_preserve (fun st => st.outcome.isSome = true) _
    (fun s e' _ => winEventStep_isSome output s e') evs _ (winEventStep_isSome output _ e)

def linuxPromiseInv (st : LinuxPromiseState) : Prop :=
  st.settleCount = if st.outcome.isSome then 1 else 0

theorem linuxTrySettle_inv (st : LinuxPromiseState) (s : Settled) (h : linuxPromiseInv st) :
    linuxPromiseInv (linuxTrySettle st s) := by
  unfold linuxPromiseInv at h ⊢
  cases ho : st.outcome <;> simp [linuxTrySettle, ho] <;> simp [ho] at h <;> omega

theorem linuxEventStep_inv (output : Option Content) (st : LinuxPromiseState)
    (e : LinuxEvent) (h : linuxPromiseInv st) : linuxPromiseInv (linuxEventStep output st e) := by
  have hmk : linuxPromiseInv ⟨st.outcome, st.settleCount, true⟩ := h
  cases e with
  | primaryError c =>
    simp only [linuxEventStep]
    split
    · exact h
    · split
      · exact hmk
      · exact linuxTrySettle_inv _ _ hmk
  | primaryClose code =>
    simp only [linuxEventStep]
    split
    · exact h
    · split <;> exact linuxTrySettle_inv _ _ hmk
  | fallbackError c => exact linuxTrySettle_inv _ _ h
  | fallbackClose code =>
    simp only [linuxEventStep]
    split <;> exact linuxTrySettle_inv _ _ h

theorem linuxRunEvents_inv (output : Option Content) (evs : List LinuxEvent) :
    linuxPromiseInv (linuxRunEvents output evs) :=
  foldl_preserve linuxPromiseInv _ (fun s e h => linuxEventStep_inv output s e h) evs
    ⟨none, 0, false⟩ (by simp [linuxPromiseInv])

/-- C9: every platform path produces at most one effective settlement, and
when the process reports at all — including the dual firing of a spawn
`error` and a `close` for the same invocation — exactly one terminal outcome
is produced: unconditionally on macOS and Windows for any non-empty event
sequence, and on Linux for the dual-fire sequences around the `eventHandled`
flag (a non-`ENOENT` error plus a close in either order is one outcome, and
the `ENOENT` route settles exactly once via the fallback's close). -/
theorem C9_single_settlement (output : Option Content) (evs : List ProcEvent)
    (levs : List LinuxEvent) (c : String) (code : Option ℤ) :
    (macRunEvents output evs).settleCount ≤ 1 ∧
    (evs ≠ [] → (macRunEvents output evs).settleCount = 1) ∧
    (winRunEvents output evs).settleCount ≤ 1 ∧
    (evs ≠ [] → (winRunEvents output evs).settleCount = 1) ∧
    (linuxRunEvents output levs).settleCount ≤ 1 ∧
    (c ≠ "ENOENT" →
      (linuxRunEvents output
        [LinuxEvent.primaryError c, LinuxEvent.primaryClose code]).settleCount = 1) ∧
    (linuxRunEvents output
      [LinuxEvent.primaryError "ENOENT", LinuxEvent.primaryClose code,
       LinuxEvent.fallbackClose (some 0)]).settleCount = 1 := by
  have hmac := macRunEvents_inv output evs
  have hwin := winRunEvents_inv output evs
  have hlin := linuxRunEvents_inv output levs
  unfold promiseInv at hmac hwin
  unfold linuxPromiseInv at hlin
  refine ⟨?_, ?_, ?_, ?_, ?_, ?_, ?_⟩
  · rw [hmac]; split <;> omega
  · intro hne
    obtain ⟨e, rest, rfl⟩ := List.exists_cons_of_ne_nil hne
    rw [hmac, if_pos (macRunEvents_isSome output e rest)]
  · rw [hwin]; split <;> omega
  · intro hne
    obtain ⟨e, rest, rfl⟩ := List.exists_cons_of_ne_nil hne
    rw [hwin, if_pos (winRunEvents_isSome output e rest)]
  · rw [hlin]; split <;> omega
  · intro hc
    simp [linuxRunEvents, linuxEventStep, hc, linuxTrySettle]
  · cases output <;>
      simp [linuxRunEvents, linuxEventStep, linuxTrySettle, readSettled]

/-- C9 witness: dual `error`-then-`close` firing on each platform path. -/
theorem C9_single_settlement_witness :
    (macRunEvents none [ProcEvent.error "ENOENT", ProcEvent.close (some 0)]).settleCount = 1 ∧
    (winRunEvents none [ProcEvent.error "ENOENT", ProcEvent.close (some 0)]).settleCount = 1 ∧
    (linuxRunEvents none
      [LinuxEvent.primaryError "EACCES", LinuxEvent.primaryClose (some 0)]).settleCount = 1 :=
  ⟨(C9_single_settlement none [ProcEvent.error "ENOENT", ProcEvent.close (some 0)] []
      "EACCES" (some 0)).2.1 (by simp),
   (C9_single_settlement none [ProcEvent.error "ENOENT", ProcEvent.close (some 0)] []
      "EACCES" (some 0)).2.2.2.1 (by simp),
   (C9_single_settlement none [ProcEvent.error "ENOENT", ProcEvent.close (some 0)] []
      "EACCES" (some 0)).2.2.2.2.2.1 (by decide)⟩

end LmsSpeaks
